import Mathlib

/-!
Verification of `label_studio/io_storages/s3/utils.py`.

The Python module is embedded shallowly:

* External effects (the boto3 SDK, environment lookup, logging) are passed in
  as explicit values or functions; Python exceptions become an `Except PyExc`
  result.
* `urllib.parse.urlparse` is modelled on `List Char` following CPython's
  `urlsplit`/`urlparse` (scheme detection, netloc split at `/?#`, query and
  fragment splits, params split guarded by the `uses_params` scheme list,
  removal of tab/CR/LF bytes and of a leading control-or-space prefix, and the
  unbalanced-bracket `ValueError`).
* `base64.b64encode` is modelled byte-group by byte-group on `List Nat`
  (bytes), together with a reference decoder used to state the round-trip
  property.
* Python `dict`s appearing in SDK responses are modelled as association lists;
  since `dict` keys are unique, `dict.pop(k, None)` is modelled as filtering
  the key out.
-/

/-- Python exception classes relevant to the module.  `ClientError` and
`NoCredentialsError` come from `botocore.exceptions` and neither is a subclass
of the other, so an `except ClientError` handler does not catch
`NoCredentialsError`. -/
inductive PyExc where
  | clientError (msg : String)
  | noCredentialsError (msg : String)
  | keyError (key : String)
  | valueError (msg : String)
  | otherError (msg : String)
deriving DecidableEq, Repr

/-! ## base64 (`base64.b64encode` and a reference decoder) -/

/-- The standard base64 alphabet used by `base64.b64encode`. -/
def b64Alphabet : List Char :=
  "ABCDEFGHIJKLMNOPQRSTUVWXYZabcdefghijklmnopqrstuvwxyz0123456789+/".data

/-- Character for a 6-bit group. -/
def sextetChar (n : Nat) : Char := b64Alphabet.getD n 'A'

/-- Inverse of `sextetChar` on the alphabet. -/
def sextetVal (c : Char) : Option Nat := b64Alphabet.findIdx? (· = c)

/-- `base64.b64encode` on a byte string, emitting the base64 characters.
Groups of three bytes become four alphabet characters; a trailing group of
one or two bytes is padded with `=`. -/
def b64encode : List Nat → List Char
  | [] => []
  | [a] => [sextetChar (a / 4), sextetChar (a % 4 * 16), '=', '=']
  | [a, b] => [sextetChar (a / 4), sextetChar (a % 4 * 16 + b / 16),
      sextetChar (b % 16 * 4), '=']
  | a :: b :: c :: rest =>
      sextetChar (a / 4) :: sextetChar (a % 4 * 16 + b / 16) ::
      sextetChar (b % 16 * 4 + c / 64) :: sextetChar (c % 64) :: b64encode rest

/-- Reference base64 decoder: accepts exactly the well-padded encodings and
returns the byte string. -/
def b64decode : List Char → Option (List Nat)
  | [] => some []
  | w :: x :: y :: z :: rest =>
      (sextetVal w).bind fun a =>
      (sextetVal x).bind fun b =>
      if y = '=' then
        if z = '=' ∧ rest = [] then some [a * 4 + b / 16] else none
      else
        (sextetVal y).bind fun c =>
        if z = '=' then
          if rest = [] then some [a * 4 + b / 16, b % 16 * 16 + c / 4] else none
        else
          (sextetVal z).bind fun d =>
          (b64decode rest).map fun tail =>
            (a * 4 + b / 16) :: (b % 16 * 16 + c / 4) :: (c % 4 * 64 + d) :: tail
  | _ => none

/-! ## `urllib.parse.urlparse` (the fragment exercised by `resolve_s3_url`)

Modelled on `List Char` after CPython's `urlsplit`/`urlparse`:
leading control-or-space characters are stripped, tab/CR/LF are removed
everywhere, a scheme is split off at the first `:` when the prefix is a valid
scheme, a `//`-introduced netloc runs until the first of `/?#` (raising
`ValueError` on unbalanced square brackets), the fragment is split at the
first `#` only when `allow_fragments` is true, the query at the first `?`,
and parameters are split off the last path segment only for schemes in
`uses_params`. -/

/-- Split a list at the first occurrence of `c`; `none` when `c` is absent. -/
def splitAtFirst (c : Char) : List Char → Option (List Char × List Char)
  | [] => none
  | x :: xs =>
    if x = c then some ([], xs)
    else
      match splitAtFirst c xs with
      | some (l, r) => some (x :: l, r)
      | none => none

/-- Split a list at the last occurrence of `c`; `none` when `c` is absent. -/
def splitAtLast (c : Char) : List Char → Option (List Char × List Char)
  | [] => none
  | x :: xs =>
    match splitAtLast c xs with
    | some (l, r) => some (x :: l, r)
    | none => if x = c then some ([], xs) else none

/-- Characters allowed in a URL scheme (CPython's `scheme_chars`). -/
def scheme_chars : List Char :=
  "abcdefghijklmnopqrstuvwxyzABCDEFGHIJKLMNOPQRSTUVWXYZ0123456789+-.".data

/-- CPython scheme detection: the text before the first `:` becomes the
(lowercased) scheme when it is nonempty, starts with an ASCII letter and
consists of scheme characters only; otherwise the URL is left whole. -/
def splitScheme (url : List Char) : List Char × List Char :=
  match splitAtFirst ':' url with
  | some (pre, rest) =>
    match pre with
    | [] => ([], url)
    | p :: ps =>
      if p.isAlpha ∧ (p :: ps).all (fun c => scheme_chars.contains c) then
        ((p :: ps).map Char.toLower, rest)
      else ([], url)
  | none => ([], url)

/-- CPython `_splitnetloc`: the netloc runs until the first of `/`, `?`, `#`. -/
def splitNetloc : List Char → List Char × List Char
  | [] => ([], [])
  | x :: xs =>
    if x = '/' ∨ x = '?' ∨ x = '#' then ([], x :: xs)
    else
      let (n, r) := splitNetloc xs
      (x :: n, r)

/-- Tab, carriage return and line feed are removed from the URL before
parsing (CPython's list of bytes to remove). -/
def removedBytes : List Char := ['\t', '\r', '\n']

/-- Remove tab/CR/LF everywhere. -/
def removeTabCrLf (l : List Char) : List Char :=
  l.filter (fun c => !(removedBytes.contains c))

/-- Strip the leading run of C0-control-or-space characters (code points up
to 32). -/
def lstripControlOrSpace (l : List Char) : List Char :=
  l.dropWhile (fun c => c.toNat ≤ 32)

/-- `str.partition(sep)[2]`: the text after the first occurrence of `sep`
(empty when `sep` is absent). -/
def afterFirst (c : Char) (l : List Char) : List Char :=
  match splitAtFirst c l with
  | some (_, r) => r
  | none => []

/-- `str.partition(sep)[0]`: the text before the first occurrence of `sep`
(the whole string when `sep` is absent). -/
def beforeFirst (c : Char) (l : List Char) : List Char :=
  match splitAtFirst c l with
  | some (l1, _) => l1
  | none => l

/-- The ASCII hexadecimal digits (`string.hexdigits`). -/
def hex_digits : List Char := "0123456789abcdefABCDEF".data

/-- `ipaddress` IPv4 octet validation (CPython 3.11 `_parse_octet`):
nonempty, ASCII digits only, at most three of them, no leading zero (except
`0` itself), value at most 255. -/
def parse_octet (o : List Char) : Bool :=
  !o.isEmpty && o.all (fun c => c.isDigit) && decide (o.length ≤ 3) &&
  (o == ['0'] || o.head? != some '0') &&
  decide (o.foldl (fun n c => n * 10 + (c.toNat - 48)) 0 ≤ 255)

/-- `ipaddress.IPv4Address` textual validation: no `/`, exactly four
dot-separated octets, each accepted by `parse_octet`. -/
def is_ipv4_address (s : List Char) : Bool :=
  !(s.contains '/') &&
  (let parts := s.splitOn '.'
   decide (parts.length = 4) && parts.all parse_octet)

/-- `ipaddress` IPv6 hextet validation (`_parse_hextet`): one to four hex
digits. -/
def parse_hextet (h : List Char) : Bool :=
  !h.isEmpty && h.all (fun c => hex_digits.contains c) && decide (h.length ≤ 4)

/-- `ipaddress.IPv6Address._ip_int_from_string` textual validation (CPython
3.11): colon-separated parts (at least three; an embedded dotted-quad last
part is validated as IPv4 and stands for two hextets), at most one interior
empty part (`::`); an empty first or last part is permitted only next to the
`::`; without `::` exactly eight hextets are required, and with it at most
seven are present. -/
def ipv6_addr_ok (s : List Char) : Bool :=
  if s.isEmpty then false
  else
    let parts := s.splitOn ':'
    if parts.length < 3 then false
    else
      let embedded : Option (List (List Char)) :=
        match parts.getLast? with
        | some last =>
          if last.contains '.' then
            if is_ipv4_address last then some (parts.dropLast ++ [['0'], ['0']])
            else none
          else some parts
        | none => some parts
      match embedded with
      | none => false
      | some parts =>
        if parts.length > 9 then false
        else
          match (List.range parts.length).filter (fun i =>
              decide (0 < i) && decide (i + 1 < parts.length) &&
              (parts[i]? == some ([] : List Char))) with
          | [] => decide (parts.length = 8) && parts.all parse_hextet
          | [i] =>
            (match parts.head? with
             | some [] => decide (i = 1)
             | _ => (parts.take i).all parse_hextet) &&
            (match parts.getLast? with
             | some [] => decide (i = parts.length - 2)
             | _ => (parts.drop (i + 1)).all parse_hextet) &&
            decide ((if parts.head? == some ([] : List Char) then 0 else i) +
              (if parts.getLast? == some ([] : List Char) then 0
               else parts.length - i - 1) ≤ 7)
          | _ => false

/-- `ipaddress.IPv6Address` textual validation: no `/` anywhere, an optional
single `%scope` suffix with a nonempty scope free of `%`, and a valid
address part. -/
def is_ipv6_address (s : List Char) : Bool :=
  if s.contains '/' then false
  else
    match splitAtFirst '%' s with
    | none => ipv6_addr_ok s
    | some (addr, scope) =>
      !scope.isEmpty && !(scope.contains '%') && ipv6_addr_ok addr

/-- CPython 3.11 `_check_bracketed_host`: a host starting with `v` must be an
IPvFuture literal (`v`, hex digits, `.`, at least one further character);
otherwise the host must parse as an IP address, and an IPv4 address is
rejected inside brackets. -/
def check_bracketed_host (hostname : List Char) : Except PyExc Unit :=
  match hostname with
  | 'v' :: rest =>
    let hex := rest.takeWhile (fun c => hex_digits.contains c)
    let tail := rest.dropWhile (fun c => hex_digits.contains c)
    let ok := !hex.isEmpty &&
      (match tail with
       | '.' :: tl => !tl.isEmpty && tl.all (fun c => c != '\n')
       | _ => false)
    if ok then .ok ()
    else .error (.valueError "IPvFuture address is invalid")
  | _ =>
    if is_ipv4_address hostname then
      .error (.valueError "An IPv4 address cannot be in brackets")
    else if is_ipv6_address hostname then .ok ()
    else .error (.valueError "does not appear to be an IPv4 or IPv6 address")

/-- The code points whose NFKC normalization contains one of `/ ? # @ :`,
computed from the Unicode character database used by CPython 3.11 (the five
delimiters themselves excluded).  These five ASCII characters have no
canonical decomposition and take part in no canonical composition, so they
occur in `unicodedata.normalize('NFKC', n)` exactly when a character of `n`
lies in this set — and any such character also forces the normalization to
change the string. -/
def nfkc_invalid_expanding : List Char :=
  ['⁇', '⁈', '⁉', '℀', '℁', '℅', '℆',
   '⩴', '︓', '︖', '﹕', '﹖', '﹟', '﹫',
   '＃', '／', '：', '？', '＠']

/-- CPython `_checknetloc` (the CVE-2019-9636 fix): an empty or all-ASCII
netloc passes; otherwise the netloc with `@ : # ?` removed is
NFKC-normalized, and a `ValueError` is raised when the normalization changed
the string and the result contains one of `/ ? # @ :`.  By the note on
`nfkc_invalid_expanding`, that condition holds exactly when a remaining
character lies in that set. -/
def check_netloc (netloc : List Char) : Except PyExc Unit :=
  if netloc = [] ∨ netloc.all (fun c => c.toNat ≤ 127) then .ok ()
  else
    let n := netloc.filter (fun c =>
      (c != '@') && (c != ':') && (c != '#') && (c != '?'))
    if n.any (fun c => nfkc_invalid_expanding.contains c) then
      .error (.valueError ("netloc '" ++ String.mk netloc ++
        "' contains invalid characters under NFKC normalization"))
    else .ok ()

/-- Result of `urlsplit`: scheme, netloc, path, query, fragment. -/
structure SplitResult where
  scheme : List Char
  netloc : List Char
  path : List Char
  query : List Char
  fragment : List Char
deriving DecidableEq, Repr

/-- CPython 3.11 `urlsplit` on characters.  Raises the `ValueError`s CPython
raises: unbalanced square brackets in the netloc, an invalid bracketed host
(`_check_bracketed_host`), and a netloc with characters invalid under NFKC
normalization (`_checknetloc`, called on the final netloc — the empty one
when the URL has no `//`). -/
def urlsplitCore (url0 : List Char) (allow_fragments : Bool) :
    Except PyExc SplitResult :=
  let url1 := removeTabCrLf (lstripControlOrSpace url0)
  let (scheme, url2) := splitScheme url1
  match url2 with
  | '/' :: '/' :: rest =>
    let (netloc, url3) := splitNetloc rest
    if (netloc.contains '[' ∧ ¬ netloc.contains ']') ∨
        (netloc.contains ']' ∧ ¬ netloc.contains '[') then
      .error (.valueError "Invalid IPv6 URL")
    else
      match
        (if netloc.contains '[' ∧ netloc.contains ']' then
          check_bracketed_host (beforeFirst ']' (afterFirst '[' netloc))
        else .ok ()) with
      | .error e => .error e
      | .ok _ =>
        let (url4, fragment) :=
          if allow_fragments then
            match splitAtFirst '#' url3 with
            | some (a, b) => (a, b)
            | none => (url3, [])
          else (url3, [])
        let (url5, query) :=
          match splitAtFirst '?' url4 with
          | some (a, b) => (a, b)
          | none => (url4, [])
        match check_netloc netloc with
        | .error e => .error e
        | .ok _ => .ok ⟨scheme, netloc, url5, query, fragment⟩
  | _ =>
    let (url4, fragment) :=
      if allow_fragments then
        match splitAtFirst '#' url2 with
        | some (a, b) => (a, b)
        | none => (url2, [])
      else (url2, [])
    let (url5, query) :=
      match splitAtFirst '?' url4 with
      | some (a, b) => (a, b)
      | none => (url4, [])
    match check_netloc [] with
    | .error e => .error e
    | .ok _ => .ok ⟨scheme, [], url5, query, fragment⟩

/-- Schemes for which `urlparse` splits parameters off the last path segment
(CPython's `uses_params`). -/
def uses_params : List (List Char) :=
  ["", "ftp", "hdl", "prospero", "http", "imap", "https", "shttp", "rtsp",
   "rtspu", "sip", "sips", "mms", "sftp", "tel"].map String.data

/-- CPython `_splitparams`: split at the first `;` of the last path segment. -/
def splitparams (url : List Char) : List Char × List Char :=
  if url.contains '/' then
    match splitAtLast '/' url with
    | some (before, after) =>
      match splitAtFirst ';' after with
      | some (a, b) => (before ++ '/' :: a, b)
      | none => (url, [])
    | none => (url, [])
  else
    match splitAtFirst ';' url with
    | some (a, b) => (a, b)
    | none => (url, [])

/-- Result of `urlparse` as used by the module (string fields). -/
structure ParseResult where
  scheme : String
  netloc : String
  path : String
  params : String
  query : String
  fragment : String
deriving DecidableEq, Repr

/-- CPython `urlparse`: `urlsplit` plus the params split for schemes in
`uses_params`. -/
def urlparse (url : String) (allow_fragments : Bool) :
    Except PyExc ParseResult :=
  match urlsplitCore url.data allow_fragments with
  | .error e => .error e
  | .ok r =>
    let (path, params) :=
      if uses_params.contains r.scheme ∧ r.path.contains ';' then
        splitparams r.path
      else (r.path, [])
    .ok ⟨String.mk r.scheme, String.mk r.netloc, String.mk path,
      String.mk params, String.mk r.query, String.mk r.fragment⟩

/-! ## Python truthiness helpers

`x or y` on `str`-or-`None` values: `None` and the empty string are falsy. -/

/-- Truthiness of an optional string (`None` and `''` are falsy). -/
def pyTruthy : Option String → Bool
  | some s => !(s = "")
  | none => false

/-- Python `x or y` on optional strings. -/
def pyOr (a b : Option String) : Option String :=
  match a with
  | some s => if s = "" then b else some s
  | none => b

/-- Python `x or y` where `y` is a (truthy) string literal. -/
def pyOrS (a : Option String) (b : String) : String :=
  match a with
  | some s => if s = "" then b else s
  | none => b

/-! ## Credential resolution and client construction (`utils.py` lines 14-61) -/

/-- The frozen credentials of the ambient boto3 session
(`boto3.Session().get_credentials().get_frozen_credentials()`), an external
collaborator.  A call that fails is an `Except.error`. -/
structure FrozenCredentials where
  access_key : Option String
  secret_key : Option String
  token : Option String
deriving DecidableEq, Repr

/-- The dict built by `get_sagemaker_execution_role_credentials`. -/
structure SagemakerCredentials where
  AccessKeyId : Option String
  SecretAccessKey : Option String
  SessionToken : Option String
deriving DecidableEq, Repr

/-- `get_sagemaker_execution_role_credentials` (utils.py lines 14-28): on a
provider success the three fields are copied into a dict; a
`NoCredentialsError` is caught (a warning is logged) and `None` is returned;
any other exception propagates. -/
def get_sagemaker_execution_role_credentials
    (provider : Except PyExc FrozenCredentials) :
    Except PyExc (Option SagemakerCredentials) :=
  match provider with
  | .ok credentials =>
    .ok (some ⟨credentials.access_key, credentials.secret_key,
      credentials.token⟩)
  | .error e =>
    match e with
    | .noCredentialsError _ => .ok none
    | _ => .error e

/-- The keyword arguments `get_client_and_resource` passes to
`boto3.Session`. -/
structure SessionArgs where
  aws_access_key_id : Option String
  aws_secret_access_key : Option String
  aws_session_token : Option String
deriving DecidableEq, Repr

/-- The `settings` dict passed to `session.client('s3', ...)` and
`session.resource('s3', ...)`: the region, and the endpoint override when
present. -/
structure ClientSettings where
  region_name : String
  endpoint_url : Option String
deriving DecidableEq, Repr

/-- `get_client_and_resource` (utils.py lines 30-61).  `provider` stands for
the ambient-session frozen-credentials call and `get_env` for
`core.utils.params.get_env` (environment lookup, not part of the sources;
modelled from the spec as an abstract name-to-optional-value lookup).  The
returned pair captures what is passed to the SDK: the session keyword
arguments and the client/resource settings.  The returned SageMaker
credentials dict always has three keys, hence is truthy whenever the
provider call succeeds. -/
def get_client_and_resource (provider : Except PyExc FrozenCredentials)
    (get_env : String → Option String)
    (aws_access_key_id aws_secret_access_key aws_session_token
      region_name s3_endpoint : Option String) :
    Except PyExc (SessionArgs × ClientSettings) :=
  match get_sagemaker_execution_role_credentials provider with
  | .error e => .error e
  | .ok sagemaker_credentials =>
    let (aws_access_key_id, aws_secret_access_key, aws_session_token) :=
      match sagemaker_credentials with
      | some c => (c.AccessKeyId, c.SecretAccessKey, c.SessionToken)
      | none =>
        (pyOr aws_access_key_id (get_env "AWS_ACCESS_KEY_ID"),
         pyOr aws_secret_access_key (get_env "AWS_SECRET_ACCESS_KEY"),
         pyOr aws_session_token (get_env "AWS_SESSION_TOKEN"))
    let session : SessionArgs :=
      ⟨aws_access_key_id, aws_secret_access_key, aws_session_token⟩
    let region : String := pyOrS (pyOr region_name (get_env "S3_region")) "us-east-1"
    let s3_endpoint := pyOr s3_endpoint (get_env "S3_ENDPOINT")
    let settings : ClientSettings :=
      ⟨region, if pyTruthy s3_endpoint then s3_endpoint else none⟩
    .ok (session, settings)

/-! ## `resolve_s3_url` (utils.py lines 64-86) -/

/-- The `ResponseMetadata` dict of a boto3 `get_object` response (only its
`HTTPHeaders` sub-dict is read by the module). -/
structure RespMeta where
  HTTPHeaders : List (String × String)
deriving DecidableEq, Repr

/-- A boto3 `get_object` response as `resolve_s3_url` reads it: the `Body`
stream (its `read()` yields the bytes) and the `ResponseMetadata` dict. -/
structure S3Object where
  Body : List Nat
  ResponseMetadata : RespMeta
deriving DecidableEq, Repr

/-- The S3 client operations consumed by `resolve_s3_url`: `get_object`
takes bucket and key; `generate_presigned_url` is called with
`ClientMethod='get_object'`, the bucket/key params and `ExpiresIn`, so it is
modelled as a function of bucket, key and expiry. -/
structure S3Client where
  get_object : String → String → Except PyExc S3Object
  generate_presigned_url : String → String → Nat → Except PyExc String

/-- Python `dict[k]`: the value, or a `KeyError`. -/
def dictGetStr (d : List (String × String)) (k : String) :
    Except PyExc String :=
  match d.lookup k with
  | some v => .ok v
  | none => .error (.keyError k)

/-- `str.lstrip('/')`: drop every leading slash. -/
def lstrip_slashes (s : String) : String :=
  String.mk (s.data.dropWhile (fun c => c = '/'))

/-- Lines 65-67 of `resolve_s3_url`: parse the URL (fragments disallowed),
take the netloc as bucket name and the path with leading slashes stripped as
key. -/
def resolve_s3_bucket_key (url : String) : Except PyExc (String × String) :=
  match urlparse url false with
  | .error e => .error e
  | .ok r => .ok (r.netloc, lstrip_slashes r.path)

/-- `resolve_s3_url` (utils.py lines 64-86).  With `presign=False` the object
is fetched and returned as a `data:<content-type>;base64,<payload>` string;
with `presign=True` a presigned URL is requested, a `ClientError` degrades to
the original URL, and any other exception propagates. -/
def resolve_s3_url (url : String) (client : S3Client)
    (presign : Bool := true) (expires_in : Nat := 3600) :
    Except PyExc String :=
  match resolve_s3_bucket_key url with
  | .error e => .error e
  | .ok (bucket_name, key) =>
    if !presign then
      match client.get_object bucket_name key with
      | .error e => .error e
      | .ok obj =>
        match dictGetStr obj.ResponseMetadata.HTTPHeaders "content-type" with
        | .error e => .error e
        | .ok content_type =>
          .ok ("data:" ++ content_type ++ ";base64," ++
            String.mk (b64encode obj.Body))
    else
      match client.generate_presigned_url bucket_name key expires_in with
      | .ok presigned_url => .ok presigned_url
      | .error e =>
        match e with
        | .clientError _ => .ok url
        | _ => .error e

/-! ## `AWS.get_blob_metadata` (utils.py lines 89-123) -/

/-- Python `dict.pop(k, None)` on an association list with unique keys:
remove the binding of `k`. -/
def dict_pop {α : Type} (d : List (String × α)) (k : String) :
    List (String × α) :=
  d.filter (fun p => !(p.1 = k))

/-- `AWS.get_blob_metadata` (utils.py lines 110-123), for a supplied client
(when `client is None` the source first builds one via
`get_client_and_resource`; the metadata computation below is the same either
way).  The `get_object` response is viewed as the dict it is; `dict(object)`
copies it and the `Body` and `ResponseMetadata` keys are popped. -/
def AWS.get_blob_metadata {α : Type}
    (client : String → String → Except PyExc (List (String × α)))
    (url : String) (bucket_name : String) :
    Except PyExc (List (String × α)) :=
  match client bucket_name url with
  | .error e => .error e
  | .ok obj =>
    let metadata := obj
    let metadata := dict_pop metadata "Body"
    let metadata := dict_pop metadata "ResponseMetadata"
    .ok metadata

/-! ## Supporting lemmas -/

theorem sextetVal_sextetChar : ∀ n, n < 64 → sextetVal (sextetChar n) = some n := by
  decide

theorem sextetChar_ne_pad : ∀ n, n < 64 → sextetChar n ≠ '=' := by
  decide

/-- Round-trip: decoding an encoded byte string (all bytes below 256)
recovers it exactly. -/
theorem b64decode_b64encode : ∀ bs : List Nat, (∀ b ∈ bs, b < 256) →
    b64decode (b64encode bs) = some bs
  | [], _ => rfl
  | [a], h => by
    have ha : a < 256 := h a (by simp)
    rw [b64encode, b64decode]
    rw [sextetVal_sextetChar _ (by omega), sextetVal_sextetChar _ (by omega)]
    simp only [Option.some_bind]
    simp
    omega
  | [a, b], h => by
    have ha : a < 256 := h a (by simp)
    have hb : b < 256 := h b (by simp)
    rw [b64encode, b64decode]
    rw [sextetVal_sextetChar _ (by omega), sextetVal_sextetChar _ (by omega)]
    simp only [Option.some_bind]
    rw [if_neg (sextetChar_ne_pad _ (by omega))]
    rw [sextetVal_sextetChar _ (by omega)]
    simp only [Option.some_bind]
    simp
    omega
  | a :: b :: c :: rest, h => by
    have ha : a < 256 := h a (by simp)
    have hb : b < 256 := h b (by simp)
    have hc : c < 256 := h c (by simp)
    have ih := b64decode_b64encode rest (fun x hx => h x (by simp [hx]))
    rw [b64encode, b64decode]
    rw [sextetVal_sextetChar _ (by omega), sextetVal_sextetChar _ (by omega)]
    simp only [Option.some_bind]
    rw [if_neg (sextetChar_ne_pad _ (by omega))]
    rw [sextetVal_sextetChar _ (by omega)]
    simp only [Option.some_bind]
    rw [if_neg (sextetChar_ne_pad _ (by omega))]
    rw [sextetVal_sextetChar _ (by omega)]
    simp only [Option.some_bind]
    rw [ih]
    simp
    omega

theorem lookup_dict_pop_self {α : Type} (d : List (String × α)) (k : String) :
    (dict_pop d k).lookup k = none := by
  induction d with
  | nil => rfl
  | cons p rest ih =>
    by_cases hk : p.1 = k
    · simpa [dict_pop, hk] using ih
    · have hb : (k == p.1) = false := beq_eq_false_iff_ne.mpr (Ne.symm hk)
      simpa [dict_pop, List.lookup, hk, hb] using ih

theorem lookup_dict_pop_other {α : Type} (d : List (String × α)) (k q : String)
    (hne : q ≠ k) : (dict_pop d k).lookup q = d.lookup q := by
  induction d with
  | nil => rfl
  | cons p rest ih =>
    by_cases hk : p.1 = k
    · have hb : (q == p.1) = false :=
        beq_eq_false_iff_ne.mpr (by rw [hk]; exact hne)
      have hb2 : (q == k) = false := beq_eq_false_iff_ne.mpr hne
      simpa [dict_pop, hk, List.lookup, hb, hb2] using ih
    · by_cases hq : q = p.1
      · have hb : (q == p.1) = true := beq_iff_eq.mpr hq
        simp [dict_pop, hk, List.lookup, hb]
      · have hb : (q == p.1) = false := beq_eq_false_iff_ne.mpr hq
        simpa [dict_pop, hk, List.lookup, hb] using ih

/-! ## The claims -/

/-- Claim C4: for every object mapping returned by the SDK's `get_object`,
the mapping returned by `AWS.get_blob_metadata` contains no `Body` key and no
`ResponseMetadata` key, and every other key of the fetched object is present
in the result with its value unchanged. -/
theorem get_blob_metadata_no_body_no_response_metadata {α : Type}
    (client : String → String → Except PyExc (List (String × α)))
    (url bucket_name : String) (obj : List (String × α))
    (hobj : client bucket_name url = .ok obj) :
    AWS.get_blob_metadata client url bucket_name =
      .ok (dict_pop (dict_pop obj "Body") "ResponseMetadata") ∧
    (dict_pop (dict_pop obj "Body") "ResponseMetadata").lookup "Body" = none ∧
    (dict_pop (dict_pop obj "Body") "ResponseMetadata").lookup
      "ResponseMetadata" = none ∧
    ∀ k, k ≠ "Body" → k ≠ "ResponseMetadata" →
      (dict_pop (dict_pop obj "Body") "ResponseMetadata").lookup k =
        obj.lookup k := by
  refine ⟨?_, ?_, ?_, ?_⟩
  · simp [AWS.get_blob_metadata, hobj]
  · rw [lookup_dict_pop_other _ _ _ (by decide), lookup_dict_pop_self]
  · exact lookup_dict_pop_self _ _
  · intro k h1 h2
    rw [lookup_dict_pop_other _ _ _ h2, lookup_dict_pop_other _ _ _ h1]

theorem get_blob_metadata_no_body_no_response_metadata_witness :
    AWS.get_blob_metadata
      (fun _ _ => .ok [("Body", (0 : Nat)), ("ContentLength", 5),
        ("ResponseMetadata", 1)]) "key1" "bucket1" =
      .ok (dict_pop (dict_pop [("Body", (0 : Nat)), ("ContentLength", 5),
        ("ResponseMetadata", 1)] "Body") "ResponseMetadata") ∧
    (dict_pop (dict_pop [("Body", (0 : Nat)), ("ContentLength", 5),
      ("ResponseMetadata", 1)] "Body") "ResponseMetadata").lookup "Body" =
      none ∧
    (dict_pop (dict_pop [("Body", (0 : Nat)), ("ContentLength", 5),
      ("ResponseMetadata", 1)] "Body") "ResponseMetadata").lookup
      "ResponseMetadata" = none ∧
    (dict_pop (dict_pop [("Body", (0 : Nat)), ("ContentLength", 5),
      ("ResponseMetadata", 1)] "Body") "ResponseMetadata").lookup
      "ContentLength" =
      [("Body", (0 : Nat)), ("ContentLength", 5),
        ("ResponseMetadata", 1)].lookup "ContentLength" := by
  have h := get_blob_metadata_no_body_no_response_metadata
    (fun _ _ => .ok [("Body", (0 : Nat)), ("ContentLength", 5),
      ("ResponseMetadata", 1)]) "key1" "bucket1" _ rfl
  exact ⟨h.1, h.2.1, h.2.2.1, h.2.2.2 "ContentLength" (by decide) (by decide)⟩

/-- Claim C5: when the managed-execution-role (SageMaker) credential call
succeeds, `get_client_and_resource` builds the session from the managed
credentials' access key, secret key and session token, ignoring every
explicit credential argument. -/
theorem managed_credentials_override_explicit_args
    (creds : FrozenCredentials) (get_env : String → Option String)
    (ak sk tok region endpoint : Option String) :
    ∃ settings, get_client_and_resource (.ok creds) get_env
      ak sk tok region endpoint =
      .ok (⟨creds.access_key, creds.secret_key, creds.token⟩, settings) :=
  ⟨_, rfl⟩

/-- Claim C6: when the credential provider reports that no credentials are
available, `get_sagemaker_execution_role_credentials` returns `None` rather
than raising, and `get_client_and_resource` falls through to the
explicit-argument / environment-variable sources. -/
theorem no_credentials_error_falls_through
    (msg : String) (get_env : String → Option String)
    (ak sk tok region endpoint : Option String) :
    get_sagemaker_execution_role_credentials
      (.error (.noCredentialsError msg)) = .ok none ∧
    ∃ settings, get_client_and_resource (.error (.noCredentialsError msg))
      get_env ak sk tok region endpoint =
      .ok (⟨pyOr ak (get_env "AWS_ACCESS_KEY_ID"),
        pyOr sk (get_env "AWS_SECRET_ACCESS_KEY"),
        pyOr tok (get_env "AWS_SESSION_TOKEN")⟩, settings) :=
  ⟨rfl, _, rfl⟩

/-- Claim C7: when managed credentials are unavailable, each credential field
is resolved independently from its own explicit argument, falling back to its
correspondingly named environment variable; no field's resolution affects
another's. -/
theorem credential_fields_resolved_independently
    (msg : String) (get_env : String → Option String)
    (ak sk tok region endpoint : Option String)
    (sess : SessionArgs) (st : ClientSettings)
    (h : get_client_and_resource (.error (.noCredentialsError msg)) get_env
      ak sk tok region endpoint = .ok (sess, st)) :
    sess.aws_access_key_id = pyOr ak (get_env "AWS_ACCESS_KEY_ID") ∧
    sess.aws_secret_access_key = pyOr sk (get_env "AWS_SECRET_ACCESS_KEY") ∧
    sess.aws_session_token = pyOr tok (get_env "AWS_SESSION_TOKEN") ∧
    (ak = none → sess.aws_access_key_id = get_env "AWS_ACCESS_KEY_ID") ∧
    (∀ a : String, ak = some a → a ≠ "" →
      sess.aws_access_key_id = some a) ∧
    (sk = none → sess.aws_secret_access_key = get_env "AWS_SECRET_ACCESS_KEY") ∧
    (∀ s : String, sk = some s → s ≠ "" →
      sess.aws_secret_access_key = some s) ∧
    (tok = none → sess.aws_session_token = get_env "AWS_SESSION_TOKEN") ∧
    (∀ t : String, tok = some t → t ≠ "" →
      sess.aws_session_token = some t) := by
  have hp := Except.ok.inj h
  injection hp with h1 h2
  subst h1
  refine ⟨rfl, rfl, rfl, ?_, ?_, ?_, ?_, ?_, ?_⟩
  · intro hak; subst hak; rfl
  · intro a hak hne; subst hak; simp [pyOr, hne]
  · intro hsk; subst hsk; rfl
  · intro s hsk hne; subst hsk; simp [pyOr, hne]
  · intro htok; subst htok; rfl
  · intro t htok hne; subst htok; simp [pyOr, hne]

theorem credential_fields_resolved_independently_witness :
    (⟨some "AKIAEXAMPLE", some "env-secret", none⟩ : SessionArgs).aws_access_key_id =
      some "AKIAEXAMPLE" ∧
    (⟨some "AKIAEXAMPLE", some "env-secret", none⟩ : SessionArgs).aws_secret_access_key =
      some "env-secret" := by
  have h := credential_fields_resolved_independently
    "no creds" (fun n => if n = "AWS_SECRET_ACCESS_KEY" then some "env-secret" else none)
    (some "AKIAEXAMPLE") none none none none
    ⟨some "AKIAEXAMPLE", some "env-secret", none⟩ ⟨"us-east-1", none⟩ rfl
  exact ⟨h.2.2.2.2.1 "AKIAEXAMPLE" rfl (by decide), h.2.2.2.2.2.1 rfl⟩

/-- Claim C9: the region passed to client and resource construction is the
explicit `region_name` argument if given, else the `S3_region` environment
variable if set, else the literal `us-east-1`; the endpoint override is the
explicit argument if given, else the `S3_ENDPOINT` environment variable,
else unset. -/
theorem region_and_endpoint_fallback_order
    (provider : Except PyExc FrozenCredentials)
    (get_env : String → Option String)
    (ak sk tok region endpoint : Option String)
    (sess : SessionArgs) (st : ClientSettings)
    (h : get_client_and_resource provider get_env ak sk tok region endpoint =
      .ok (sess, st)) :
    (∀ r : String, region = some r → r ≠ "" → st.region_name = r) ∧
    (region = none → ∀ v : String, get_env "S3_region" = some v → v ≠ "" →
      st.region_name = v) ∧
    (region = none → get_env "S3_region" = none →
      st.region_name = "us-east-1") ∧
    (∀ e : String, endpoint = some e → e ≠ "" → st.endpoint_url = some e) ∧
    (endpoint = none → ∀ v : String, get_env "S3_ENDPOINT" = some v →
      v ≠ "" → st.endpoint_url = some v) ∧
    (endpoint = none → get_env "S3_ENDPOINT" = none →
      st.endpoint_url = none) := by
  have hst : st = ⟨pyOrS (pyOr region (get_env "S3_region")) "us-east-1",
      if pyTruthy (pyOr endpoint (get_env "S3_ENDPOINT")) then
        pyOr endpoint (get_env "S3_ENDPOINT") else none⟩ := by
    match provider with
    | .ok creds =>
      have hp := Except.ok.inj h
      injection hp with h1 h2
      exact h2.symm
    | .error (.noCredentialsError m) =>
      have hp := Except.ok.inj h
      injection hp with h1 h2
      exact h2.symm
    | .error (.clientError m) => exact Except.noConfusion h
    | .error (.keyError m) => exact Except.noConfusion h
    | .error (.valueError m) => exact Except.noConfusion h
    | .error (.otherError m) => exact Except.noConfusion h
  subst hst
  refine ⟨?_, ?_, ?_, ?_, ?_, ?_⟩
  · intro r hr hne; subst hr; simp [pyOr, pyOrS, hne]
  · intro hr v hv hne; subst hr; simp [pyOr, pyOrS, hv, hne]
  · intro hr hv; subst hr; simp [pyOr, pyOrS, hv]
  · intro e he hne; subst he; simp [pyOr, pyTruthy, hne]
  · intro he v hv hne; subst he; simp [pyOr, pyTruthy, hv, hne]
  · intro he hv; subst he; simp [pyOr, pyTruthy, hv]

theorem region_and_endpoint_fallback_order_witness :
    (⟨"eu-west-2", some "http://minio:9000"⟩ : ClientSettings).region_name =
      "eu-west-2" ∧
    (⟨"eu-west-2", some "http://minio:9000"⟩ : ClientSettings).endpoint_url =
      some "http://minio:9000" := by
  have h := region_and_endpoint_fallback_order
    (.error (.noCredentialsError "no creds")) (fun _ => none)
    none none none (some "eu-west-2") (some "http://minio:9000")
    ⟨none, none, none⟩ ⟨"eu-west-2", some "http://minio:9000"⟩ rfl
  exact ⟨h.1 "eu-west-2" rfl (by decide),
    h.2.2.2.1 "http://minio:9000" rfl (by decide)⟩

/-- Claim C1: with `presign=True`, when the presigning call raises a
`ClientError`, `resolve_s3_url` returns the original input URL unchanged
(no error, not empty). -/
theorem resolve_s3_url_client_error_returns_original
    (url : String) (client : S3Client) (expires_in : Nat)
    (bucket key msg : String)
    (hparse : resolve_s3_bucket_key url = .ok (bucket, key))
    (hgen : client.generate_presigned_url bucket key expires_in =
      .error (.clientError msg)) :
    resolve_s3_url url client true expires_in = .ok url := by
  simp [resolve_s3_url, hparse, hgen]

theorem resolve_s3_url_client_error_returns_original_witness :
    resolve_s3_url "s3://bucket-a/path/to/key"
      ⟨fun _ _ => .error (.otherError "not used"),
       fun _ _ _ => .error (.clientError "AccessDenied")⟩ true 3600 =
      .ok "s3://bucket-a/path/to/key" :=
  resolve_s3_url_client_error_returns_original
    "s3://bucket-a/path/to/key" _ 3600 "bucket-a" "path/to/key"
    "AccessDenied" rfl rfl

/-- Claim C8: with `presign=True`, when the presigning call succeeds,
`resolve_s3_url` returns exactly the URL produced by that call. -/
theorem resolve_s3_url_presign_success_returns_presigned
    (url : String) (client : S3Client) (expires_in : Nat)
    (bucket key presigned_url : String)
    (hparse : resolve_s3_bucket_key url = .ok (bucket, key))
    (hgen : client.generate_presigned_url bucket key expires_in =
      .ok presigned_url) :
    resolve_s3_url url client true expires_in = .ok presigned_url := by
  simp [resolve_s3_url, hparse, hgen]

theorem resolve_s3_url_presign_success_returns_presigned_witness :
    resolve_s3_url "s3://bucket-a/path/to/key"
      ⟨fun _ _ => .error (.otherError "not used"),
       fun _ _ _ => .ok "https://signed.example/abc?sig=1"⟩ true 3600 =
      .ok "https://signed.example/abc?sig=1" :=
  resolve_s3_url_presign_success_returns_presigned
    "s3://bucket-a/path/to/key" _ 3600 "bucket-a" "path/to/key"
    "https://signed.example/abc?sig=1" rfl rfl

/-- Claim C10: with `presign=True`, only a `ClientError` degrades to the
original URL; any other exception raised by the presigning call propagates
and the original URL is not returned. -/
theorem resolve_s3_url_non_client_error_propagates
    (url : String) (client : S3Client) (expires_in : Nat)
    (bucket key : String) (e : PyExc)
    (hparse : resolve_s3_bucket_key url = .ok (bucket, key))
    (hgen : client.generate_presigned_url bucket key expires_in = .error e)
    (he : ∀ m, e ≠ PyExc.clientError m) :
    resolve_s3_url url client true expires_in = .error e := by
  cases e with
  | clientError m => exact absurd rfl (he m)
  | noCredentialsError m => simp [resolve_s3_url, hparse, hgen]
  | keyError k => simp [resolve_s3_url, hparse, hgen]
  | valueError m => simp [resolve_s3_url, hparse, hgen]
  | otherError m => simp [resolve_s3_url, hparse, hgen]

theorem resolve_s3_url_non_client_error_propagates_witness :
    resolve_s3_url "s3://bucket-a/path/to/key"
      ⟨fun _ _ => .error (.otherError "not used"),
       fun _ _ _ => .error (.noCredentialsError "Unable to locate credentials")⟩
      true 3600 =
      .error (.noCredentialsError "Unable to locate credentials") :=
  resolve_s3_url_non_client_error_propagates
    "s3://bucket-a/path/to/key" _ 3600 "bucket-a" "path/to/key"
    (.noCredentialsError "Unable to locate credentials") rfl rfl
    (fun _ hm => PyExc.noConfusion hm)

/-- Claim C2: with `presign=False`, when the fetch succeeds the result is
`data:` + content type + `;base64,` + payload, and the payload is a valid
base64 encoding that decodes back to exactly the fetched body bytes. -/
theorem resolve_s3_url_data_url_roundtrip
    (url : String) (client : S3Client) (expires_in : Nat)
    (bucket key : String) (obj : S3Object) (content_type : String)
    (hparse : resolve_s3_bucket_key url = .ok (bucket, key))
    (hobj : client.get_object bucket key = .ok obj)
    (hct : obj.ResponseMetadata.HTTPHeaders.lookup "content-type" =
      some content_type)
    (hbytes : ∀ b ∈ obj.Body, b < 256) :
    resolve_s3_url url client false expires_in =
      .ok ("data:" ++ content_type ++ ";base64," ++
        String.mk (b64encode obj.Body)) ∧
    b64decode (b64encode obj.Body) = some obj.Body := by
  constructor
  · simp [resolve_s3_url, hparse, hobj, dictGetStr, hct]
  · exact b64decode_b64encode obj.Body hbytes

theorem resolve_s3_url_data_url_roundtrip_witness :
    resolve_s3_url "s3://bucket-a/path/to/key"
      ⟨fun _ _ => .ok ⟨[77, 97, 110], ⟨[("content-type", "image/png")]⟩⟩,
       fun _ _ _ => .error (.otherError "not used")⟩ false 3600 =
      .ok "data:image/png;base64,TWFu" ∧
    b64decode (b64encode [77, 97, 110]) = some [77, 97, 110] := by
  have h := resolve_s3_url_data_url_roundtrip
    "s3://bucket-a/path/to/key"
    ⟨fun _ _ => .ok ⟨[77, 97, 110], ⟨[("content-type", "image/png")]⟩⟩,
     fun _ _ _ => .error (.otherError "not used")⟩ 3600
    "bucket-a" "path/to/key" ⟨[77, 97, 110], ⟨[("content-type", "image/png")]⟩⟩
    "image/png" rfl rfl rfl (by decide)
  exact ⟨h.1.trans (congrArg Except.ok (by decide)), h.2⟩

theorem splitAtFirst_of_not_mem (c : Char) (l : List Char) (h : c ∉ l) :
    splitAtFirst c l = none := by
  induction l with
  | nil => rfl
  | cons x xs ih =>
    simp only [List.mem_cons, not_or] at h
    rw [splitAtFirst, if_neg (fun hx => h.1 hx.symm), ih h.2]

theorem splitAtFirst_append (c : Char) (l1 l2 : List Char) (h : c ∉ l1) :
    splitAtFirst c (l1 ++ c :: l2) = some (l1, l2) := by
  induction l1 with
  | nil => simp [splitAtFirst]
  | cons x xs ih =>
    simp only [List.mem_cons, not_or] at h
    rw [List.cons_append, splitAtFirst, if_neg (fun hx => h.1 hx.symm),
      ih h.2]

theorem splitNetloc_append (nl rest : List Char)
    (h : ∀ x ∈ nl, x ≠ '/' ∧ x ≠ '?' ∧ x ≠ '#') :
    splitNetloc (nl ++ '/' :: rest) = (nl, '/' :: rest) := by
  induction nl with
  | nil => simp [splitNetloc]
  | cons x xs ih =>
    have hx := h x (List.mem_cons_self x xs)
    rw [List.cons_append, splitNetloc, if_neg (by
      rintro (h1 | h2 | h3)
      · exact hx.1 h1
      · exact hx.2.1 h2
      · exact hx.2.2 h3)]
    rw [ih (fun y hy => h y (List.mem_cons_of_mem x hy))]

theorem dropWhile_slashes_eq_self (key : List Char)
    (h : key.head? ≠ some '/') :
    key.dropWhile (fun c => c = '/') = key := by
  cases key with
  | nil => rfl
  | cons x xs =>
    have hx : x ≠ '/' := fun hh => h (by rw [hh]; rfl)
    simp [List.dropWhile_cons, hx]

theorem check_netloc_ok (netloc : List Char)
    (h : ∀ c ∈ netloc, c ∉ nfkc_invalid_expanding) :
    check_netloc netloc = .ok () := by
  have hany : ∀ m : List Char, (∀ c ∈ m, c ∉ nfkc_invalid_expanding) →
      m.any (fun c => nfkc_invalid_expanding.contains c) = false := by
    intro m hm
    rw [List.any_eq_false]
    intro c hc
    simpa using hm c hc
  rw [check_netloc]
  split
  · rfl
  · simp [hany _ (fun c hc => h c (List.mem_of_mem_filter hc))]
    intro x hx _ _ _ _
    exact h x hx

theorem urlsplitCore_s3_reference (bucket key : List Char)
    (hb : ∀ c ∈ bucket, c ≠ '/' ∧ c ≠ '?' ∧ c ≠ '#' ∧ c ≠ '[' ∧ c ≠ ']' ∧
      c ≠ '\t' ∧ c ≠ '\r' ∧ c ≠ '\n' ∧ c ∉ nfkc_invalid_expanding)
    (hk : ∀ c ∈ key, c ≠ '?' ∧ c ≠ '\t' ∧ c ≠ '\r' ∧ c ≠ '\n') :
    urlsplitCore ("s3://".data ++ bucket ++ '/' :: key) false =
      .ok ⟨['s', '3'], bucket, '/' :: key, [], []⟩ := by
  have hd : "s3://".data = ['s', '3', ':', '/', '/'] := rfl
  rw [hd]
  have hlstrip : lstripControlOrSpace
      (['s', '3', ':', '/', '/'] ++ bucket ++ '/' :: key) =
      ['s', '3', ':', '/', '/'] ++ bucket ++ '/' :: key := by
    simp [lstripControlOrSpace, List.dropWhile_cons]
  have hremove : removeTabCrLf
      (['s', '3', ':', '/', '/'] ++ bucket ++ '/' :: key) =
      ['s', '3', ':', '/', '/'] ++ bucket ++ '/' :: key := by
    rw [removeTabCrLf]
    refine List.filter_eq_self.mpr ?_
    intro a ha
    simp only [List.cons_append, List.nil_append, List.mem_cons,
      List.mem_append] at ha
    rcases ha with h1 | h1 | h1 | h1 | h1 | h1 | h1 | h1
    · subst h1; decide
    · subst h1; decide
    · subst h1; decide
    · subst h1; decide
    · subst h1; decide
    · obtain ⟨-, -, -, -, -, t1, t2, t3, -⟩ := hb a h1
      simp [removedBytes, t1, t2, t3]
    · subst h1; decide
    · obtain ⟨-, t1, t2, t3⟩ := hk a h1
      simp [removedBytes, t1, t2, t3]
  have hfirst : splitAtFirst ':'
      (['s', '3', ':', '/', '/'] ++ bucket ++ '/' :: key) =
      some (['s', '3'], '/' :: '/' :: (bucket ++ '/' :: key)) := by
    simp [splitAtFirst, List.cons_append]
  have hscheme : splitScheme
      (['s', '3', ':', '/', '/'] ++ bucket ++ '/' :: key) =
      (['s', '3'], '/' :: '/' :: (bucket ++ '/' :: key)) := by
    rw [splitScheme, hfirst]
    norm_num [scheme_chars]
    rw [if_pos (show 's'.isAlpha = true by decide)]
    rw [show 's'.toLower = 's' from rfl, show '3'.toLower = '3' from rfl]
  have hnetloc : splitNetloc (bucket ++ '/' :: key) = (bucket, '/' :: key) :=
    splitNetloc_append bucket key
      (fun x hx => ⟨(hb x hx).1, (hb x hx).2.1, (hb x hx).2.2.1⟩)
  have hnb1 : '[' ∉ bucket := fun hm => ((hb _ hm).2.2.2.1) rfl
  have hnb2 : ']' ∉ bucket := fun hm => ((hb _ hm).2.2.2.2.1) rfl
  have hquery : splitAtFirst '?' ('/' :: key) = none := by
    refine splitAtFirst_of_not_mem _ _ ?_
    simp only [List.mem_cons, not_or]
    exact ⟨by decide, fun hm => (hk _ hm).1 rfl⟩
  have hcheck : check_netloc bucket = .ok () :=
    check_netloc_ok bucket (fun c hc => (hb c hc).2.2.2.2.2.2.2.2)
  rw [urlsplitCore, hlstrip, hremove, hscheme]
  simp [hnetloc, hquery, hnb1, hnb2, hcheck]

/-- Claim C3: for every object-reference URL `s3://bucket/key` (bucket free
of netloc delimiters, of removed bytes and of the characters `_checknetloc`
rejects under NFKC normalization; key free of `?` and removed bytes and not
starting with a slash), `resolve_s3_url` extracts the bucket name as the
URL's netloc and the object key as the path with its leading slash stripped;
in particular `s3://bucket-a/path/to/key` yields bucket `bucket-a` and key
`path/to/key`. -/
theorem resolve_s3_bucket_key_extracts_netloc_and_key
    (url : String) (bucket key : List Char)
    (hurl : url.data = "s3://".data ++ bucket ++ '/' :: key)
    (hb : ∀ c ∈ bucket, c ≠ '/' ∧ c ≠ '?' ∧ c ≠ '#' ∧ c ≠ '[' ∧ c ≠ ']' ∧
      c ≠ '\t' ∧ c ≠ '\r' ∧ c ≠ '\n' ∧ c ∉ nfkc_invalid_expanding)
    (hk : ∀ c ∈ key, c ≠ '?' ∧ c ≠ '\t' ∧ c ≠ '\r' ∧ c ≠ '\n')
    (hk0 : key.head? ≠ some '/') :
    resolve_s3_bucket_key url = .ok (String.mk bucket, String.mk key) := by
  have hcore := urlsplitCore_s3_reference bucket key hb hk
  rw [resolve_s3_bucket_key, urlparse, hurl, hcore]
  simp [uses_params, lstrip_slashes, dropWhile_slashes_eq_self key hk0]

theorem resolve_s3_bucket_key_extracts_netloc_and_key_witness :
    resolve_s3_bucket_key "s3://bucket-a/path/to/key" =
      .ok ("bucket-a", "path/to/key") :=
  resolve_s3_bucket_key_extracts_netloc_and_key
    "s3://bucket-a/path/to/key" "bucket-a".data "path/to/key".data
    rfl (by decide) (by decide) (by decide)
